import Mathlib

/-!
Formal model of the django-handy-helpers repository.

Part 1: group-permission mixins (djangohelpers/permissions.py).
Part 2: the query-parameter validator `InvalidLookupMixin`
        (handyhelpers/mixins/viewset_mixins.py).

Python data is embedded shallowly: a `permission_dict` attribute that may be
absent is an `Option`; a dict value that may be Python `None` is an `Option`;
a computation that raises an uncaught exception returns `none`.
-/

namespace DjangoHandyHelpers

/-- Python dict lookup `permission_dict.get(request.method, [])` on a dict
whose values are either `None` (modelled `none`) or a list of group names
(`some l`).  A missing key yields the Python default `[]`, i.e. `some []`. -/
def pdGet (d : List (String × Option (List String))) (method : String) :
    Option (List String) :=
  match d.find? (fun p => p.1 == method) with
  | none => some []
  | some p => p.2

/-- Model of `MethodUserInAllGroups.has_permission`.  `pd = none` models a view
with no `permission_dict` attribute (`hasattr` is false).  The final test is
`set(permission_dict).issubset([i.name for i in request.user.groups.all()])`. -/
def hasPermissionAll (pd : Option (List (String × Option (List String))))
    (method : String) (userGroups : List String) : Bool :=
  match pd with
  | none => false
  | some d =>
    match pdGet d method with
    | none => false
    | some required => required.all (fun g => userGroups.contains g)

/-- Model of `MethodUserInAnyGroup.has_permission`.  Unlike the all-groups
variant it has no `is None` guard: iterating a `None` value raises a
`TypeError`, modelled as result `none`; a normal return `b` is `some b`. -/
def hasPermissionAny (pd : Option (List (String × Option (List String))))
    (method : String) (userGroups : List String) : Option Bool :=
  match pd with
  | none => some false
  | some d =>
    match pdGet d method with
    | none => none
    | some required => some (required.any (fun g => userGroups.contains g))

/-- Possible outcomes of `MethodGroupPermissionBase.dispatch`. -/
inductive BaseDispatchResult where
  | redirect (nextPath loginUrl redirectFieldName : String)
  | permissionDenied
  | proceed
deriving DecidableEq

/-- Python truthiness of an optional string setting: `None` and `""` are
falsy, every other string is truthy. -/
def pyTruthyStr : Option String → Bool
  | none => false
  | some s => !(s == "")

/-- Django constant `REDIRECT_FIELD_NAME`. -/
def redirectFieldNameConst : String := "next"

/-- Model of `MethodGroupPermissionBase.dispatch`.  `hp` is the result of
`self.has_permission(request, ...)` (`none` = it raised, which propagates);
`loginUrl` is `settings.LOGIN_URL`; `fullPath` is `request.get_full_path()`.
`proceed` models delegation to `super().dispatch`. -/
def baseDispatch (hp : Option Bool) (loginUrl : Option String)
    (fullPath : String) : Option BaseDispatchResult :=
  match hp with
  | none => none
  | some true => some .proceed
  | some false =>
    if pyTruthyStr loginUrl && !(redirectFieldNameConst == "") then
      some (.redirect fullPath (loginUrl.getD "") redirectFieldNameConst)
    else
      some .permissionDenied

/-!
Part 2: `InvalidLookupMixin`.

A filterset class is modelled as an index into an environment `FilterEnv`
listing, per class, the dict returned by `get_filters()` (an insertion-ordered
list of field-name / filter pairs).  A `RelatedFilter` holds the index of the
filterset class it delegates to — indices, rather than an inductive tree,
because a Python filterset class can refer to itself or to another class
cyclically.  `get_lookup_expression` therefore takes a fuel argument; `none`
models non-termination (Python `RecursionError`).
-/

/-- Filter entry in a filterset dict: a plain filter, or a `RelatedFilter`
delegating to the filterset class with the given index. -/
inductive FilterSpec where
  | plain
  | related (cls : Nat)
deriving DecidableEq

/-- Result of `get_filters()` on one filterset class: insertion-ordered
field-name / filter pairs. -/
abbrev FilterDict := List (String × FilterSpec)

/-- Environment of filterset classes, indexed by `Nat`. -/
abbrev FilterEnv := List FilterDict

/-- Dict of the filterset class with index `c` (`j.filterset.get_filters()`). -/
def getFilters (env : FilterEnv) (c : Nat) : FilterDict :=
  (env.get? c).getD []

/-- One pass of the `for i, j in fs_filter.items()` loop of
`get_lookup_expression`, with the recursive call into a related filterset
abstracted as `nested`.  Python mutates `lookup_expression_list` in place, but
re-binds it to a fresh list at function entry when the passed value is falsy
(empty); so the caller sees the callee's appends exactly when the accumulator
was non-empty at the call — hence `if acc = [] then acc else res`. -/
def glexpAux (env : FilterEnv)
    (nested : FilterDict → String → List String → Option (List String)) :
    FilterDict → Option String → List String → Option (List String)
  | [], _, acc => some acc
  | (i, j) :: rest, rf, acc =>
    if rf = some i then
      glexpAux env nested rest rf acc
    else
      match j with
      | .related c =>
        match nested (getFilters env c) i acc with
        | none => none
        | some res =>
          glexpAux env nested rest rf (if acc = [] then acc else res)
      | .plain =>
        let expression :=
          match rf with
          | some r => r ++ "__" ++ i
          | none => i
        glexpAux env nested rest rf
          (if acc.contains expression then acc else acc ++ [expression])

/-- Model of `InvalidLookupMixin.get_lookup_expression(fs_filter,
related_field, lookup_expression_list)` with fuel counting related-filter
recursion depth; `none` = the Python call would not return (unbounded
recursion). -/
def get_lookup_expression (env : FilterEnv) :
    Nat → FilterDict → Option String → List String → Option (List String)
  | 0, _, _, _ => none
  | fuel + 1, fs, rf, acc =>
    glexpAux env (fun fs2 i acc2 => get_lookup_expression env fuel fs2 (some i) acc2)
      fs rf acc

/-- Model of Python `field.rstrip('!')`: remove every trailing `!`. -/
def rstripBang (s : String) : String :=
  String.mk ((s.data.reverse.dropWhile (fun c => c == '!')).reverse)

/-- Model of Python `field.split('__')[0]` on the character list: the part of
the string before the first occurrence of a double underscore. -/
def splitHeadDunder : List Char → List Char
  | [] => []
  | '_' :: '_' :: _ => []
  | c :: rest => c :: splitHeadDunder rest

/-- String wrapper for `splitHeadDunder`. -/
def fieldBase (s : String) : String := String.mk (splitHeadDunder s.data)

/-- Single-quote character as a string, for Python `repr` of strings. -/
def squote : String := String.mk ['\x27']

/-- Python `str(...)` of a list of strings, as interpolated by an f-string:
`['a', 'b']`. -/
def pyStrListRepr (l : List String) : String :=
  "[" ++ String.intercalate ", " (l.map (fun s => squote ++ s ++ squote)) ++ "]"

/-- Default of `getattr(settings, 'INVALID_LOOKUP_SKIP_LIST', [...])`. -/
def defaultSkipList : List String :=
  ["offset", "limit", "format", "fields", "omit", "expand"]

/-- Class-level configuration of a viewset using `InvalidLookupMixin`:
`filter_class` is an optional filterset class (index into the environment),
the two field lists default to `[]`, and the model contributes the names of
`model._meta.fields + model._meta.many_to_many` plus `model.__name__`. -/
structure ViewsetConfig where
  filter_class : Option Nat
  filterset_fields : List String
  filter_fields : List String
  modelFieldNames : List String
  modelName : String

/-- Check of one query-string key inside the loop of
`InvalidLookupMixin.dispatch`.  Result `none` = the iteration does not return
normally (the `get_lookup_expression` call would not terminate);
`some none` = the key passes (loop continues); `some (some msg)` = the loop
returns a 404 `JsonResponse` whose `detail` is `msg`. -/
def checkField (env : FilterEnv) (fuel : Nat) (cfg : ViewsetConfig)
    (skipList : List String) (rawField : String) : Option (Option String) :=
  let field := rstripBang rawField
  if field ∈ skipList then
    some none
  else
    match cfg.filter_class with
    | some fc =>
      match get_lookup_expression env fuel (getFilters env fc) none [] with
      | none => none
      | some valid_fields =>
        if field ∈ valid_fields then
          some none
        else
          some (some "\x7b\x7d is not a valid filter field:")
    | none =>
      if !cfg.filterset_fields.isEmpty then
        if field ∈ cfg.filterset_fields then
          some none
        else
          some (some (field ++ " is not valid field. Filterable fields are: " ++
            pyStrListRepr cfg.filterset_fields))
      else if !cfg.filter_fields.isEmpty then
        if field ∈ cfg.filter_fields then
          some none
        else
          some (some (field ++ " is not valid field. Filterable fields are: " ++
            pyStrListRepr cfg.filter_fields))
      else
        if fieldBase field ∈ cfg.modelFieldNames then
          some none
        else
          some (some (field ++ " is not a valid field in " ++ cfg.modelName))

/-- Outcome of `InvalidLookupMixin.dispatch`: a 404 `JsonResponse` with the
given `detail` string, or delegation to `super().dispatch`. -/
inductive DispatchOutcome where
  | reject404 (detail : String)
  | proceed
deriving DecidableEq

/-- Model of `InvalidLookupMixin.dispatch` over the list of query-string keys
of `request.GET.dict()` (values never influence the checks).  `none` = the
dispatch does not return (a `get_lookup_expression` call recursed
unboundedly). -/
def invalidLookupDispatch (env : FilterEnv) (fuel : Nat) (cfg : ViewsetConfig)
    (skipList : List String) : List String → Option DispatchOutcome
  | [] => some .proceed
  | k :: rest =>
    match checkField env fuel cfg skipList k with
    | none => none
    | some (some msg) => some (.reject404 msg)
    | some none => invalidLookupDispatch env fuel cfg skipList rest

/-!
Auxiliary definitions used to state the claims.
-/

/-- Rendering of the claim wording "strips exactly one trailing `!`
character": remove one trailing `!` if present, otherwise leave the key
unchanged.  Stated from the claim, to be compared with `rstripBang`, which is
the code's `rstrip('!')`. -/
def specStripOneBang (s : String) : String :=
  match s.data.reverse with
  | '!' :: rest => String.mk rest.reverse
  | _ => s

/-- Claim wording "the only cycles are single-hop self-references": every
edge of the class-reference graph between two distinct classes descends along
some rank function, so every cycle is a self-loop. -/
def OnlySelfReferenceCycles (env : FilterEnv) : Prop :=
  ∃ rank : Nat → Nat, ∀ c d f, c ≠ d →
    (f, FilterSpec.related d) ∈ getFilters env c → rank d < rank c

/-- Field `f` of class `c` is a related filter pointing back at `c` itself. -/
def SelfEntry (env : FilterEnv) (c : Nat) (f : String) : Prop :=
  (f, FilterSpec.related c) ∈ getFilters env c

/-- No class declares two distinct self-referential related entries. -/
def UniqueSelfEntry (env : FilterEnv) : Prop :=
  ∀ c f g, SelfEntry env c f → SelfEntry env c g → f = g

/-- Termination of `get_lookup_expression` on a filter dict, as in the call
made by `dispatch`: some fuel suffices for the computation to return. -/
def glexpTerminates (env : FilterEnv) (fs : FilterDict) : Prop :=
  ∃ fuel r, get_lookup_expression env fuel fs none [] = some r

/-- Class `c` still has a self-referential entry that the name guard would
not skip when the class is entered via `via`. -/
def selfBlockable (env : FilterEnv) (c : Nat) (via : Option String) : Bool :=
  (getFilters env c).any
    (fun p => decide (p.2 = FilterSpec.related c) && decide (some p.1 ≠ via))

/-- Termination measure for the recursion state "inside the dict of class `c`,
entered via field name `via`". -/
def stateMeasure (env : FilterEnv) (rank : Nat → Nat) (c : Nat)
    (via : Option String) : Nat :=
  2 * rank c + (if selfBlockable env c via then 1 else 0)

/-- Environment with one filterset class holding two distinct self-referential
related entries: its class graph has only self-loop cycles, yet the name guard
of `get_lookup_expression` cannot stop the recursion alternating between the
two entries. -/
def envTwoSelf : FilterEnv := [[("f", .related 0), ("g", .related 0)]]

/-- Environment with one self-referential filterset class: field `friend`
relates back to the class itself, field `name` is a plain filter. -/
def envSelfOnce : FilterEnv := [[("friend", .related 0), ("name", .plain)]]

/-!
Helper lemmas.
-/

/-- Dropping a prefix by `p` twice is the same as dropping it once. -/
theorem dropWhile_self (p : Char → Bool) (l : List Char) :
    (l.dropWhile p).dropWhile p = l.dropWhile p := by
  induction l with
  | nil => rfl
  | cons c rest ih =>
    by_cases h : p c
    · simp [List.dropWhile_cons, h, ih]
    · simp [List.dropWhile_cons, h]

/-- Python `rstrip('!')` is idempotent. -/
theorem rstripBang_idem (s : String) :
    rstripBang (rstripBang s) = rstripBang s := by
  simp [rstripBang, dropWhile_self]

/-- Entering a related filterset strictly decreases the termination measure,
given that inter-class edges descend along `rank` and self-referential entries
are unique per class. -/
theorem stateMeasure_step (env : FilterEnv) (rank : Nat → Nat)
    (h1 : ∀ c d f, c ≠ d →
      (f, FilterSpec.related d) ∈ getFilters env c → rank d < rank c)
    (h2 : UniqueSelfEntry env)
    (c : Nat) (via : Option String) (g : String) (e : Nat)
    (hmem : (g, FilterSpec.related e) ∈ getFilters env c)
    (hvia : via ≠ some g) :
    stateMeasure env rank e (some g) < stateMeasure env rank c via := by
  by_cases hec : e = c
  · subst hec
    have hblock : selfBlockable env e via = true := by
      simp only [selfBlockable, List.any_eq_true]
      refine ⟨(g, FilterSpec.related e), hmem, ?_⟩
      simp only [Bool.and_eq_true, decide_eq_true_eq]
      exact ⟨trivial, fun h => hvia h.symm⟩
    have hnoblock : selfBlockable env e (some g) = false := by
      rw [← Bool.not_eq_true]
      simp only [selfBlockable, List.any_eq_true]
      rintro ⟨p, hp, hcond⟩
      simp only [Bool.and_eq_true, decide_eq_true_eq] at hcond
      obtain ⟨hrel, hname⟩ := hcond
      have hpself : SelfEntry env e p.1 := by
        have : (p.1, FilterSpec.related e) ∈ getFilters env e := by
          rw [← hrel]; exact hp
        exact this
      exact hname (by rw [h2 e p.1 g hpself hmem])
    simp [stateMeasure, hblock, hnoblock]
  · have hlt : rank e < rank c := h1 c e g (fun hh => hec hh.symm) hmem
    simp only [stateMeasure]
    have hb1 : (if selfBlockable env e (some g) then 1 else 0) ≤ 1 := by
      split <;> omega
    have hb2 : 0 ≤ (if selfBlockable env c via then 1 else 0) := Nat.zero_le _
    omega

/-- Fuel one more than the termination measure suffices for
`get_lookup_expression` on the dict of any class, under the two cycle
conditions. -/
theorem glexp_total_aux (env : FilterEnv) (rank : Nat → Nat)
    (h1 : ∀ c d f, c ≠ d →
      (f, FilterSpec.related d) ∈ getFilters env c → rank d < rank c)
    (h2 : UniqueSelfEntry env) :
    ∀ (n c : Nat) (via : Option String) (acc : List String),
      stateMeasure env rank c via ≤ n →
      ∃ r, get_lookup_expression env (n + 1) (getFilters env c) via acc = some r := by
  intro n
  induction n using Nat.strong_induction_on with
  | _ n IH =>
    intro c via acc hn
    show ∃ r, glexpAux env
      (fun fs2 i acc2 => get_lookup_expression env n fs2 (some i) acc2)
      (getFilters env c) via acc = some r
    have key : ∀ fs, (∀ p ∈ fs, p ∈ getFilters env c) →
        ∀ acc2, ∃ r, glexpAux env
          (fun fs2 i acc2 => get_lookup_expression env n fs2 (some i) acc2)
          fs via acc2 = some r := by
      intro fs
      induction fs with
      | nil => intro _ acc2; exact ⟨acc2, rfl⟩
      | cons hd tl ihl =>
        intro hsub acc2
        obtain ⟨i, j⟩ := hd
        by_cases hguard : via = some i
        · simp only [glexpAux, if_pos hguard]
          exact ihl (fun p hp => hsub p (List.mem_cons_of_mem _ hp)) acc2
        · cases j with
          | plain =>
            simp only [glexpAux, if_neg hguard]
            exact ihl (fun p hp => hsub p (List.mem_cons_of_mem _ hp)) _
          | related e =>
            have hmem : (i, FilterSpec.related e) ∈ getFilters env c :=
              hsub _ (List.mem_cons_self _ _)
            have hlt : stateMeasure env rank e (some i) <
                stateMeasure env rank c via :=
              stateMeasure_step env rank h1 h2 c via i e hmem hguard
            have hpos : stateMeasure env rank e (some i) < n :=
              Nat.lt_of_lt_of_le hlt hn
            obtain ⟨m, hm⟩ : ∃ m, n = m + 1 := by
              cases n with
              | zero => exact absurd hpos (Nat.not_lt_zero _)
              | succ k => exact ⟨k, rfl⟩
            subst hm
            obtain ⟨res, hres⟩ :=
              IH m (Nat.lt_succ_self m) e (some i) acc2
                (Nat.le_of_lt_succ hpos)
            simp only [glexpAux, if_neg hguard]
            rw [hres]
            exact ihl (fun p hp => hsub p (List.mem_cons_of_mem _ hp)) _
    exact key (getFilters env c) (fun p hp => hp) acc

/-- On `envTwoSelf`, `get_lookup_expression` returns for no amount of fuel:
from any entry name the recursion re-enters the class through the other
self-referential entry, which the name guard does not skip. -/
theorem envTwoSelf_loops_aux :
    ∀ (fuel : Nat) (rf : Option String) (acc : List String),
      get_lookup_expression [[("f", FilterSpec.related 0), ("g", FilterSpec.related 0)]]
        fuel [("f", FilterSpec.related 0), ("g", FilterSpec.related 0)] rf acc = none := by
  intro fuel
  induction fuel with
  | zero => intro rf acc; rfl
  | succ n ih =>
    intro rf acc
    by_cases h : rf = some "f"
    · simp [get_lookup_expression, glexpAux, getFilters, h, ih]
    · simp [get_lookup_expression, glexpAux, getFilters, h, ih]

/-- Restatement of `envTwoSelf_loops_aux` through `envTwoSelf` and
`getFilters`. -/
theorem envTwoSelf_loops :
    ∀ (fuel : Nat) (rf : Option String) (acc : List String),
      get_lookup_expression envTwoSelf fuel
        (getFilters envTwoSelf 0) rf acc = none :=
  fun fuel rf acc => envTwoSelf_loops_aux fuel rf acc

/-!
Claim theorems.
-/

/-- C1: for every user and HTTP method, `MethodUserInAllGroups.has_permission`
admits iff the required-group list declared for the method is, as a set,
a subset of the user's group names, and `MethodUserInAnyGroup.has_permission`
admits iff some required group is among the user's group names; for a
required-group list equal to `[]`, the all-groups mixin admits and the
any-groups mixin denies. -/
theorem method_mixins_group_semantics
    (d : List (String × Option (List String))) (method : String)
    (userGroups req : List String)
    (hreq : pdGet d method = some req) :
    (hasPermissionAll (some d) method userGroups = true ↔
      ∀ g ∈ req, g ∈ userGroups) ∧
    (hasPermissionAny (some d) method userGroups = some true ↔
      ∃ g ∈ req, g ∈ userGroups) ∧
    (req = [] →
      hasPermissionAll (some d) method userGroups = true ∧
      hasPermissionAny (some d) method userGroups = some false) := by
  refine ⟨?_, ?_, ?_⟩
  · simp [hasPermissionAll, hreq, List.all_eq_true, List.contains, List.elem_iff]
  · simp [hasPermissionAny, hreq, List.any_eq_true, List.contains, List.elem_iff]
  · rintro rfl
    simp [hasPermissionAll, hasPermissionAny, hreq]

/-- Witness for C1 at the dict `{GET: [operators]}`, a user in `operators`. -/
theorem method_mixins_group_semantics_witness :
    (hasPermissionAll (some [("GET", some ["operators"])]) "GET" ["operators"] = true ↔
      ∀ g ∈ (["operators"] : List String), g ∈ (["operators"] : List String)) ∧
    (hasPermissionAny (some [("GET", some ["operators"])]) "GET" ["operators"] = some true ↔
      ∃ g ∈ (["operators"] : List String), g ∈ (["operators"] : List String)) ∧
    ((["operators"] : List String) = [] →
      hasPermissionAll (some [("GET", some ["operators"])]) "GET" ["operators"] = true ∧
      hasPermissionAny (some [("GET", some ["operators"])]) "GET" ["operators"] = some false) :=
  method_mixins_group_semantics [("GET", some ["operators"])] "GET"
    ["operators"] ["operators"] (by decide)

/-- C2 counterexample: `permission_dict = {POST: [admins]}` has no entry for
`GET`, yet the all-groups mixin admits even a user with no groups — the
missing entry defaults to `[]`, whose set is a subset of anything — so a
declared dict without an entry for the request's method does not deny for
every user. -/
theorem missing_method_entry_admits_all_groups :
    hasPermissionAll (some [("POST", some ["admins"])]) "GET" [] = true := by
  decide

/-- C2 (amended): for a declared `permission_dict` with no entry for the
request's method, the all-groups mixin admits every user and the any-groups
mixin denies every user; for an entry explicitly `None`, the all-groups mixin
denies every user and the any-groups mixin raises instead of returning. -/
theorem missing_or_null_method_entry_behavior :
    (∀ (d : List (String × Option (List String))) (m : String) (g : List String),
      d.find? (fun p => p.1 == m) = none →
        hasPermissionAll (some d) m g = true ∧
        hasPermissionAny (some d) m g = some false) ∧
    (∀ (d : List (String × Option (List String))) (m : String) (g : List String),
      pdGet d m = none →
        hasPermissionAll (some d) m g = false ∧
        hasPermissionAny (some d) m g = none) := by
  constructor
  · intro d m g h
    simp [hasPermissionAll, hasPermissionAny, pdGet, h]
  · intro d m g h
    simp [hasPermissionAll, hasPermissionAny, h]

/-- Witness for the amended C2: a dict without a `GET` entry, and a dict whose
`GET` entry is `None`. -/
theorem missing_or_null_method_entry_behavior_witness :
    (hasPermissionAll (some [("POST", some ["admins"])]) "GET" [] = true ∧
      hasPermissionAny (some [("POST", some ["admins"])]) "GET" [] = some false) ∧
    (hasPermissionAll (some [("GET", none)]) "GET" ["admins"] = false ∧
      hasPermissionAny (some [("GET", none)]) "GET" ["admins"] = none) :=
  ⟨missing_or_null_method_entry_behavior.1 [("POST", some ["admins"])] "GET" []
      (by decide),
    missing_or_null_method_entry_behavior.2 [("GET", none)] "GET" ["admins"]
      (by decide)⟩

/-- C3 counterexample: the code's `rstrip('!')` removes every trailing `!`,
not exactly one: on the key `status!!` one-character stripping would leave
`status!`, which is not among the declared filterset fields `[status]`, yet
the dispatch passes the request because both `!` are removed. -/
theorem strip_negation_marker_not_single :
    rstripBang "status!!" ≠ specStripOneBang "status!!" ∧
    specStripOneBang "status!!" ∉ (["status"] : List String) ∧
    invalidLookupDispatch [] 1 ⟨none, ["status"], [], [], "MyModel"⟩
      defaultSkipList ["status!!"] = some DispatchOutcome.proceed := by
  decide

/-- C3 (amended): the validator strips all trailing `!` characters from each
query-string key — only the stripped form of a key matters — and the key
`status!` with `status` not in the skip list and `status` among the declared
filterset fields passes validation. -/
theorem strip_negation_marker_behavior :
    (∀ (env : FilterEnv) (fuel : Nat) (cfg : ViewsetConfig)
        (skipList : List String) (k : String),
      checkField env fuel cfg skipList k =
        checkField env fuel cfg skipList (rstripBang k)) ∧
    (∀ (env : FilterEnv) (fuel : Nat) (fsf ff mf : List String) (mn : String)
        (skipList : List String),
      "status" ∉ skipList → "status" ∈ fsf →
        checkField env fuel ⟨none, fsf, ff, mf, mn⟩ skipList "status!" =
          some none) := by
  constructor
  · intro env fuel cfg skipList k
    simp only [checkField, rstripBang_idem]
  · intro env fuel fsf ff mf mn skipList hskip hmem
    have hbase : rstripBang "status!" = "status" := by decide
    have hne : fsf.isEmpty = false := by
      cases fsf with
      | nil => cases hmem
      | cons a l => rfl
    simp [checkField, hbase, hskip, hmem, hne]

/-- Witness for the amended C3: `status!` against filterset fields `[status]`
and the default skip list. -/
theorem strip_negation_marker_behavior_witness :
    checkField [] 1 ⟨none, ["status"], [], [], "MyModel"⟩
      defaultSkipList "status!" = some none :=
  strip_negation_marker_behavior.2 [] 1 ["status"] [] [] "MyModel"
    defaultSkipList (by decide) (by decide)

/-- C4: evaluation of `get_lookup_expression` at the spec's own example
`{a: RelatedFilter(filterset={b: Filter()})}`.  The code returns `[]`, not
`[a__b]`: the empty accumulator passed into the recursive call is falsy, so
the callee re-binds it to a fresh list and the caller discards the returned
value.  With a non-empty accumulator (second conjunct) the intended prefixed
expression `a__b` does appear, confirming the intent of the recursion. -/
theorem related_filter_flatten_loses_nested :
    get_lookup_expression [[("b", FilterSpec.plain)]] 2
      [("a", FilterSpec.related 0)] none [] = some [] ∧
    get_lookup_expression [[("b", FilterSpec.plain)]] 2
      [("x", FilterSpec.plain), ("a", FilterSpec.related 0)] none [] =
        some ["x", "a__b"] := by
  decide

/-- C5 counterexample: the environment `envTwoSelf` — one filterset class with
two distinct self-referential entries `f` and `g` — has only single-hop
self-reference cycles in its class graph, yet `get_lookup_expression`
never returns on it: the recursion alternates between the two entries and the
same-name guard never fires on the entry it descends through. -/
theorem two_self_references_diverge :
    OnlySelfReferenceCycles envTwoSelf ∧
    ¬ glexpTerminates envTwoSelf (getFilters envTwoSelf 0) := by
  constructor
  · refine ⟨fun _ => 0, ?_⟩
    intro c d f hne hmem
    match c with
    | 0 =>
      simp [getFilters, envTwoSelf] at hmem
      rcases hmem with ⟨_, h2⟩ | ⟨_, h2⟩ <;>
        · cases h2; exact absurd rfl hne
    | Nat.succ m =>
      simp [getFilters, envTwoSelf] at hmem
  · rintro ⟨fuel, r, h⟩
    rw [envTwoSelf_loops fuel none []] at h
    exact Option.noConfusion h

/-- C5 (amended): `get_lookup_expression` terminates on every filter
environment whose only class-graph cycles are single-hop self-references,
provided additionally that no class declares two distinct self-referential
related entries. -/
theorem glexp_terminates_unique_self_reference (env : FilterEnv) (c : Nat)
    (h1 : OnlySelfReferenceCycles env) (h2 : UniqueSelfEntry env) :
    glexpTerminates env (getFilters env c) := by
  obtain ⟨rank, hrank⟩ := h1
  obtain ⟨r, hr⟩ := glexp_total_aux env rank hrank h2
    (stateMeasure env rank c none) c none [] (Nat.le_refl _)
  exact ⟨stateMeasure env rank c none + 1, r, hr⟩

/-- Witness for the amended C5: the single self-referential class of
`envSelfOnce` (`friend` relates back to the class, `name` is plain). -/
theorem glexp_terminates_unique_self_reference_witness :
    glexpTerminates envSelfOnce (getFilters envSelfOnce 0) := by
  refine glexp_terminates_unique_self_reference envSelfOnce 0 ⟨fun _ => 0, ?_⟩ ?_
  · intro c d f hne hmem
    match c with
    | 0 =>
      have hmem2 : (f, FilterSpec.related d) ∈
          [("friend", FilterSpec.related 0), ("name", FilterSpec.plain)] := hmem
      cases hmem2 with
      | head => exact absurd rfl hne
      | tail _ h =>
        cases h with
        | tail _ h2 => cases h2
    | Nat.succ m =>
      have hmem2 : (f, FilterSpec.related d) ∈ ([] : FilterDict) := hmem
      cases hmem2
  · intro c f g hf hg
    match c with
    | 0 =>
      have hf2 : (f, FilterSpec.related 0) ∈
          [("friend", FilterSpec.related 0), ("name", FilterSpec.plain)] := hf
      have hg2 : (g, FilterSpec.related 0) ∈
          [("friend", FilterSpec.related 0), ("name", FilterSpec.plain)] := hg
      cases hf2 with
      | head =>
        cases hg2 with
        | head => rfl
        | tail _ h =>
          cases h with
          | tail _ h2 => cases h2
      | tail _ h =>
        cases h with
        | tail _ h2 => cases h2
    | Nat.succ m =>
      have hf2 : (f, FilterSpec.related (Nat.succ m)) ∈ ([] : FilterDict) := hf
      cases hf2

/-- C6: evaluation of every rejection branch.  All four reject with a 404
JSON response, and the `filterset_fields` / `filter_fields` branches
enumerate the valid fields, but the `filter_class` branch returns the literal
detail `\x7b\x7d is not a valid filter field:` — the format placeholder is
never filled, so that message does not name the offending key `zzz`
(second conjunct: `zzz` is not even a substring of it). -/
theorem rejection_response_details :
    invalidLookupDispatch [[("b", FilterSpec.plain)]] 1
      ⟨some 0, [], [], [], "MyModel"⟩ defaultSkipList ["zzz"] =
        some (DispatchOutcome.reject404 "\x7b\x7d is not a valid filter field:") ∧
    ¬ ("zzz".data <:+: ("\x7b\x7d is not a valid filter field:").data) ∧
    invalidLookupDispatch [] 1 ⟨none, ["status"], [], [], "MyModel"⟩
      defaultSkipList ["bogus"] =
        some (DispatchOutcome.reject404
          ("bogus is not valid field. Filterable fields are: [" ++ squote ++
            "status" ++ squote ++ "]")) ∧
    invalidLookupDispatch [] 1 ⟨none, [], ["status"], [], "MyModel"⟩
      defaultSkipList ["bogus"] =
        some (DispatchOutcome.reject404
          ("bogus is not valid field. Filterable fields are: [" ++ squote ++
            "status" ++ squote ++ "]")) ∧
    invalidLookupDispatch [] 1 ⟨none, [], [], ["owner"], "MyModel"⟩
      defaultSkipList ["bogus"] =
        some (DispatchOutcome.reject404 "bogus is not a valid field in MyModel") := by
  decide

/-- C7: validation-source selection is strictly prioritized and mutually
exclusive.  With a `filter_class` declared, the outcome is independent of the
other sources and acceptance is decided exactly by the flattened lookup
expressions (or the skip list); with `filterset_fields` or `filter_fields`
non-empty, the later sources are ignored; in the model-source case only the
portion of the key before its first double underscore is matched. -/
theorem validation_source_precedence :
    (∀ (env : FilterEnv) (fuel fc : Nat) (fsf ff mf : List String)
        (mn : String) (skipList : List String) (k : String),
      checkField env fuel ⟨some fc, fsf, ff, mf, mn⟩ skipList k =
        checkField env fuel ⟨some fc, [], [], [], ""⟩ skipList k) ∧
    (∀ (env : FilterEnv) (fuel fc : Nat) (fsf ff mf : List String)
        (mn : String) (skipList : List String) (k : String)
        (valid : List String),
      get_lookup_expression env fuel (getFilters env fc) none [] = some valid →
        (checkField env fuel ⟨some fc, fsf, ff, mf, mn⟩ skipList k = some none ↔
          rstripBang k ∈ skipList ∨ rstripBang k ∈ valid)) ∧
    (∀ (env : FilterEnv) (fuel : Nat) (fsf ff mf : List String) (mn : String)
        (skipList : List String) (k : String), fsf ≠ [] →
      checkField env fuel ⟨none, fsf, ff, mf, mn⟩ skipList k =
        checkField env fuel ⟨none, fsf, [], [], ""⟩ skipList k) ∧
    (∀ (env : FilterEnv) (fuel : Nat) (ff mf : List String) (mn : String)
        (skipList : List String) (k : String), ff ≠ [] →
      checkField env fuel ⟨none, [], ff, mf, mn⟩ skipList k =
        checkField env fuel ⟨none, [], ff, [], ""⟩ skipList k) ∧
    (∀ (env : FilterEnv) (fuel : Nat) (mf : List String) (mn : String)
        (skipList : List String) (k : String),
      checkField env fuel ⟨none, [], [], mf, mn⟩ skipList k = some none ↔
        rstripBang k ∈ skipList ∨ fieldBase (rstripBang k) ∈ mf) := by
  refine ⟨?_, ?_, ?_, ?_, ?_⟩
  · intro env fuel fc fsf ff mf mn skipList k
    rfl
  · intro env fuel fc fsf ff mf mn skipList k valid hval
    by_cases hskip : rstripBang k ∈ skipList
    · simp [checkField, hskip]
    · by_cases hv : rstripBang k ∈ valid
      · simp [checkField, hskip, hval, hv]
      · simp [checkField, hskip, hval, hv]
  · intro env fuel fsf ff mf mn skipList k h
    cases fsf with
    | nil => exact absurd rfl h
    | cons a l => rfl
  · intro env fuel ff mf mn skipList k h
    cases ff with
    | nil => exact absurd rfl h
    | cons a l => rfl
  · intro env fuel mf mn skipList k
    by_cases hskip : rstripBang k ∈ skipList
    · simp [checkField, hskip]
    · by_cases hm : fieldBase (rstripBang k) ∈ mf
      · simp [checkField, hskip, hm]
      · simp [checkField, hskip, hm]

/-- Witness for C7: concrete instances discharging the hypotheses of the
second, third and fourth clauses. -/
theorem validation_source_precedence_witness :
    (checkField [[("b", FilterSpec.plain)]] 1 ⟨some 0, ["s"], ["x"], ["y"], "Z"⟩
        [] "b" = some none ↔
      rstripBang "b" ∈ ([] : List String) ∨ rstripBang "b" ∈ (["b"] : List String)) ∧
    (checkField [] 1 ⟨none, ["s"], ["x"], ["y"], "Z"⟩ [] "k" =
      checkField [] 1 ⟨none, ["s"], [], [], ""⟩ [] "k") ∧
    (checkField [] 1 ⟨none, [], ["x"], ["y"], "Z"⟩ [] "k" =
      checkField [] 1 ⟨none, [], ["x"], [], ""⟩ [] "k") :=
  ⟨validation_source_precedence.2.1 [[("b", FilterSpec.plain)]] 1 0
      ["s"] ["x"] ["y"] "Z" [] "b" ["b"] (by decide),
    validation_source_precedence.2.2.1 [] 1 ["s"] ["x"] ["y"] "Z" [] "k"
      (by decide),
    validation_source_precedence.2.2.2.1 [] 1 ["x"] ["y"] "Z" [] "k"
      (by decide)⟩

/-- C8: with no `permission_dict` attribute declared, both method-based
mixins deny for every user and every HTTP method. -/
theorem no_permission_dict_denies (method : String) (userGroups : List String) :
    hasPermissionAll none method userGroups = false ∧
    hasPermissionAny none method userGroups = some false :=
  ⟨rfl, rfl⟩

/-- C9: on denial, `MethodGroupPermissionBase.dispatch` redirects to the
configured login target carrying the original path together with the
return-to field name when `settings.LOGIN_URL` is truthy, and otherwise
raises `PermissionDenied` (not handled locally); on admission it delegates to
the wrapped view. -/
theorem base_dispatch_denial_behavior (loginUrl : Option String) (path : String) :
    (pyTruthyStr loginUrl = true →
      baseDispatch (some false) loginUrl path =
        some (.redirect path (loginUrl.getD "") redirectFieldNameConst)) ∧
    (pyTruthyStr loginUrl = false →
      baseDispatch (some false) loginUrl path = some .permissionDenied) ∧
    baseDispatch (some true) loginUrl path = some .proceed := by
  refine ⟨?_, ?_, rfl⟩
  · intro h
    simp [baseDispatch, h, redirectFieldNameConst]
  · intro h
    simp [baseDispatch, h]

/-- Witness for C9: a configured login URL redirects; an unset one raises. -/
theorem base_dispatch_denial_behavior_witness :
    baseDispatch (some false) (some "/accounts/login/") "/hosts/?page=2" =
      some (BaseDispatchResult.redirect "/hosts/?page=2" "/accounts/login/"
        redirectFieldNameConst) ∧
    baseDispatch (some false) none "/hosts/" =
      some BaseDispatchResult.permissionDenied :=
  ⟨(base_dispatch_denial_behavior (some "/accounts/login/") "/hosts/?page=2").1
      (by decide),
    (base_dispatch_denial_behavior none "/hosts/").2.1 (by decide)⟩

/-- C10: a `permission_dict` entry explicitly `None` for the request's method
makes the any-groups mixin raise an uncaught error (iterating `None`), while
the all-groups mixin cleanly returns `False` because of its `is None` guard. -/
theorem null_entry_any_raises_all_denies
    (d : List (String × Option (List String))) (method : String)
    (userGroups : List String)
    (h : pdGet d method = none) :
    hasPermissionAny (some d) method userGroups = none ∧
    hasPermissionAll (some d) method userGroups = false := by
  simp [hasPermissionAny, hasPermissionAll, h]

/-- Witness for C10 at the dict `{GET: None}`. -/
theorem null_entry_any_raises_all_denies_witness :
    hasPermissionAny (some [("GET", none)]) "GET" ["operators"] = none ∧
    hasPermissionAll (some [("GET", none)]) "GET" ["operators"] = false :=
  null_entry_any_raises_all_denies [("GET", none)] "GET" ["operators"]
    (by decide)

end DjangoHandyHelpers
